import Mathlib

/-!
# Verification of the `AuthorizerV2` OAuth2 credential supplier

Shallow embedding of the OAuth2 credential supplier (`AuthorizerV2`) of the
go-twitter-pro repository (source file `oauth2.go`, Go package `twitter`).
The Go code is stateful (a struct mutated under a mutex); here it is embedded
as pure functions on an explicit state record, with each call to `time.Now()`
represented by an `Int` parameter measured in seconds (all duration constants
in the source — 5 minutes, 2 hours, `expires_in` — are whole numbers of
seconds, so second granularity is exact for every comparison the code makes).
The network exchange performed by `o.client.Do` is represented by an
`ExchangeOutcome` value describing what the token endpoint returned; the
mutex and the fire-and-forget callback goroutine (which do not affect the
sequential state transition) are elided.
-/

namespace GoTwitter

/-- Seconds in `5 * time.Minute`, the staleness safety margin of
`getValidToken`. -/
def fiveMinutes : Int := 300

/-- Seconds in `2 * time.Hour`, the default token lifetime used by
`NewAuthorizerV2` and by `refreshAccessToken` when `expires_in` is absent
or non-positive. -/
def twoHours : Int := 7200

/-- The hard-coded token endpoint set by `NewAuthorizerV2`. -/
def defaultTokenURL : String := "https://api.twitter.com/2/oauth2/token"

/-- `OAuth2TokenResponse`: the Go struct into which the 200-response body is
JSON-decoded. Field names keep the Go spelling. -/
structure OAuth2TokenResponse where
  AccessToken : String
  RefreshToken : String
  TokenType : String
  ExpiresIn : Int
  Scope : String
deriving Repr, DecidableEq

/-- A well-formed JSON object body sent by the token endpoint, field by
field; `none` means the field is absent from the JSON text. This is the
input to the embedded `encoding/json` decode step. -/
structure JsonBody where
  access_token : Option String
  refresh_token : Option String
  token_type : Option String
  expires_in : Option Int
  scope : Option String
deriving Repr, DecidableEq

/-- Semantics of `json.NewDecoder(resp.Body).Decode(&tokenResp)` on a
well-formed JSON object: Go's `encoding/json` never requires a field — an
absent field simply leaves the struct field at its zero value (`""` for
strings, `0` for ints) and decoding succeeds. -/
def decodeTokenResponse (b : JsonBody) : OAuth2TokenResponse :=
  { AccessToken := b.access_token.getD ""
    RefreshToken := b.refresh_token.getD ""
    TokenType := b.token_type.getD ""
    ExpiresIn := b.expires_in.getD 0
    Scope := b.scope.getD "" }

/-- What `o.client.Do(req)` and the subsequent body handling produced:
either the transport failed (`err != nil` from `Do`), or the endpoint
answered with a status code and a body. For a body, `json? = some b` means
the body is well-formed JSON decoding per `decodeTokenResponse`; `json? =
none` means the body is not valid JSON, so `Decode` returns an error
(carrying that error's message). `raw` is the body text read verbatim by
the non-200 branch. -/
inductive ExchangeOutcome where
  | transportError (msg : String)
  | response (status : Nat) (raw : String) (json? : Option JsonBody) (decodeErrMsg : String)
deriving Repr, DecidableEq

/-- The mutable state of the `AuthorizerV2` struct. `expiresAt` is an
absolute time in seconds. The `client` and `callback` fields are elided:
the transport is passed as an `ExchangeOutcome` and the callback goroutine
does not touch this state. -/
structure AuthorizerV2 where
  accessToken : String
  refreshToken : String
  clientID : String
  clientSecret : String
  tokenURL : String
  expiresAt : Int
deriving Repr, DecidableEq

/-- `NewAuthorizerV2(accessToken, refreshToken, clientID, clientSecret,
callback)`: builds the struct with the hard-coded endpoint and a two-hour
expiry estimate, then clears the client credentials and endpoint when no
refresh token was given. `now` is the `time.Now()` of the construction. -/
def NewAuthorizerV2 (accessToken refreshToken clientID clientSecret : String)
    (now : Int) : AuthorizerV2 :=
  let auth : AuthorizerV2 :=
    { accessToken := accessToken
      refreshToken := refreshToken
      clientID := clientID
      clientSecret := clientSecret
      tokenURL := defaultTokenURL
      expiresAt := now + twoHours }
  if refreshToken = "" then
    { auth with clientID := "", clientSecret := "", tokenURL := "" }
  else
    auth

instance {ε α : Type} [DecidableEq ε] [DecidableEq α] : DecidableEq (Except ε α) :=
  fun a b =>
    match a, b with
    | .ok a, .ok b =>
        if h : a = b then .isTrue (by rw [h]) else .isFalse (by simp [h])
    | .error a, .error b =>
        if h : a = b then .isTrue (by rw [h]) else .isFalse (by simp [h])
    | .ok _, .error _ => .isFalse (by simp)
    | .error _, .ok _ => .isFalse (by simp)

/-- Result of an operation that may refresh: the state afterwards, the Go
return value `(string, error)` as an `Except`, and how many token-endpoint
exchanges (calls to `o.client.Do`) were performed. -/
structure RefreshResult where
  state : AuthorizerV2
  result : Except String String
  exchanges : Nat
deriving Repr, DecidableEq

/-- `refreshAccessToken(ctx, refreshToken)`: fails fast on an empty refresh
token (before any I/O); otherwise performs the exchange and, only on a 200
response with a decodable body, atomically updates access token, refresh
token (kept when the response's is empty) and `expiresAt` (`now` is the
`time.Now()` of the update; two-hour default when `expires_in ≤ 0`).
On every failure the state is returned unchanged. The error strings are
the exact `fmt.Errorf` messages of the source. -/
def refreshAccessToken (o : AuthorizerV2) (refreshToken : String)
    (outcome : ExchangeOutcome) (now : Int) : RefreshResult :=
  if refreshToken = "" then
    { state := o, result := .error "no refresh token available", exchanges := 0 }
  else
    match outcome with
    | .transportError msg =>
        { state := o, result := .error ("failed to refresh token: " ++ msg)
          exchanges := 1 }
    | .response status raw json? decodeErrMsg =>
        if status ≠ 200 then
          { state := o
            result := .error ("token refresh failed with status "
              ++ toString status ++ ": " ++ raw)
            exchanges := 1 }
        else
          match json? with
          | none =>
              { state := o
                result := .error ("failed to decode token response: " ++ decodeErrMsg)
                exchanges := 1 }
          | some b =>
              let tokenResp := decodeTokenResponse b
              let o' : AuthorizerV2 :=
                { o with
                  accessToken := tokenResp.AccessToken
                  refreshToken :=
                    if tokenResp.RefreshToken ≠ "" then tokenResp.RefreshToken
                    else o.refreshToken
                  expiresAt :=
                    if tokenResp.ExpiresIn > 0 then now + tokenResp.ExpiresIn
                    else now + twoHours }
              { state := o', result := .ok o'.accessToken, exchanges := 1 }

/-- `getValidToken(ctx)`: fast path returns the cached access token when
`time.Now().Add(5*time.Minute).Before(o.expiresAt)` (a strict comparison,
taken at `nowCheck`); otherwise refreshes with the snapshotted refresh
token (`nowUpd` is the later `time.Now()` inside the refresh). -/
def getValidToken (o : AuthorizerV2) (nowCheck : Int)
    (outcome : ExchangeOutcome) (nowUpd : Int) : RefreshResult :=
  if nowCheck + fiveMinutes < o.expiresAt then
    { state := o, result := .ok o.accessToken, exchanges := 0 }
  else
    refreshAccessToken o o.refreshToken outcome nowUpd

/-- Result of `Add`: the state afterwards, the value added to the request's
`Authorization` header, and the number of exchanges performed. -/
structure AddResult where
  state : AuthorizerV2
  header : String
  exchanges : Nat
deriving Repr, DecidableEq

/-- `Add(req)`: with no refresh token, attach the cached access token and
return (no I/O); otherwise attach the token from `getValidToken`, falling
back to the currently cached access token when it fails. Never returns an
error. -/
def Add (o : AuthorizerV2) (nowCheck : Int) (outcome : ExchangeOutcome)
    (nowUpd : Int) : AddResult :=
  if o.refreshToken = "" then
    { state := o, header := "Bearer " ++ o.accessToken, exchanges := 0 }
  else
    let r := getValidToken o nowCheck outcome nowUpd
    match r.result with
    | .ok token =>
        { state := r.state, header := "Bearer " ++ token, exchanges := r.exchanges }
    | .error _ =>
        { state := r.state, header := "Bearer " ++ r.state.accessToken
          exchanges := r.exchanges }

/-- `UpdateTokens(accessToken, refreshToken)`: each argument replaces the
stored value only when non-empty; nothing else changes. -/
def UpdateTokens (o : AuthorizerV2) (accessToken refreshToken : String) :
    AuthorizerV2 :=
  let o₁ := if accessToken ≠ "" then { o with accessToken := accessToken } else o
  if refreshToken ≠ "" then { o₁ with refreshToken := refreshToken } else o₁

/-- `GetTokens()`: read-only snapshot `(accessToken, refreshToken)`. -/
def GetTokens (o : AuthorizerV2) : String × String :=
  (o.accessToken, o.refreshToken)

/-- `ForceRefresh(ctx)`: snapshots the refresh token, fails with the
no-refresh-token error when it is empty, otherwise runs the exchange and
returns its error (if any); the returned state is the state afterwards. -/
def ForceRefresh (o : AuthorizerV2) (outcome : ExchangeOutcome) (now : Int) :
    AuthorizerV2 × Option String :=
  let refreshToken := o.refreshToken
  if refreshToken = "" then
    (o, some "no refresh token available")
  else
    let r := refreshAccessToken o refreshToken outcome now
    match r.result with
    | .ok _ => (r.state, none)
    | .error e => (r.state, some e)

/-! ## Helper lemmas (shared) -/

/-- Every failure path of `refreshAccessToken` leaves the state unchanged. -/
theorem refreshAccessToken_error_state (o : AuthorizerV2) (rt : String)
    (outcome : ExchangeOutcome) (now : Int) (e : String)
    (h : (refreshAccessToken o rt outcome now).result = .error e) :
    (refreshAccessToken o rt outcome now).state = o := by
  by_cases hrt : rt = ""
  · simp [refreshAccessToken, hrt]
  · cases outcome with
    | transportError msg => simp [refreshAccessToken, hrt]
    | response status raw json? d =>
      by_cases hs : status = 200
      · cases json? with
        | none => simp [refreshAccessToken, hrt, hs]
        | some b => simp [refreshAccessToken, hrt, hs] at h
      · simp [refreshAccessToken, hrt, hs]

/-- `refreshAccessToken` never empties a non-empty stored refresh token. -/
theorem refreshAccessToken_keeps_refresh (o : AuthorizerV2) (rt : String)
    (outcome : ExchangeOutcome) (now : Int) (h : o.refreshToken ≠ "") :
    (refreshAccessToken o rt outcome now).state.refreshToken ≠ "" := by
  by_cases hrt : rt = ""
  · simpa [refreshAccessToken, hrt] using h
  · cases outcome with
    | transportError msg => simpa [refreshAccessToken, hrt] using h
    | response status raw json? d =>
      by_cases hs : status = 200
      · cases json? with
        | none => simpa [refreshAccessToken, hrt, hs] using h
        | some b =>
          simp [refreshAccessToken, hrt, hs, decodeTokenResponse]
          split <;> simp_all
      · simpa [refreshAccessToken, hrt, hs] using h

/-- A non-empty string prepended by append keeps its first character. -/
theorem head?_append (p m : String) (c : Char) (hp : p.data.head? = some c) :
    (p ++ m).data.head? = some c := by
  show (p.data ++ m.data).head? = some c
  cases hd : p.data with
  | nil => rw [hd] at hp; cases hp
  | cons a as => rw [hd] at hp; simpa using hp

/-- Strings whose first characters differ are different strings. -/
theorem ne_of_head_ne (s t : String) (h : s.data.head? ≠ t.data.head?) :
    s ≠ t :=
  fun e => h (congrArg (fun x => x.data.head?) e)

/-- With a non-empty refresh token, `refreshAccessToken` performs exactly
one exchange whatever the endpoint answers. -/
theorem refreshAccessToken_exchanges (o : AuthorizerV2) (rt : String)
    (outcome : ExchangeOutcome) (now : Int) (h : rt ≠ "") :
    (refreshAccessToken o rt outcome now).exchanges = 1 := by
  cases outcome with
  | transportError m => simp [refreshAccessToken, h]
  | response s raw j d =>
    by_cases hs : s = 200
    · cases j with
      | none => simp [refreshAccessToken, h, hs]
      | some b => simp [refreshAccessToken, h, hs]
    · simp [refreshAccessToken, h, hs]

/-! ## Claim theorems -/

/-- C1: in refresh mode, an exchange answered by HTTP 200 with a decodable
JSON body succeeds and atomically installs the response's `access_token`;
the stored refresh token becomes the response's `refresh_token` when that
field is non-empty and is otherwise retained unchanged; `expiresAt` becomes
`now + expires_in` when `expires_in` is positive and `now + 2h` when it is
absent or non-positive; and `GetTokens` then returns exactly this pair. -/
theorem forceRefresh_success_updates (o : AuthorizerV2) (b : JsonBody)
    (raw d : String) (now : Int) (h : o.refreshToken ≠ "") :
    (ForceRefresh o (.response 200 raw (some b) d) now).2 = none ∧
    (ForceRefresh o (.response 200 raw (some b) d) now).1.accessToken =
      b.access_token.getD "" ∧
    (ForceRefresh o (.response 200 raw (some b) d) now).1.refreshToken =
      (if b.refresh_token.getD "" ≠ "" then b.refresh_token.getD ""
       else o.refreshToken) ∧
    (ForceRefresh o (.response 200 raw (some b) d) now).1.expiresAt =
      (if 0 < b.expires_in.getD 0 then now + b.expires_in.getD 0
       else now + twoHours) ∧
    GetTokens (ForceRefresh o (.response 200 raw (some b) d) now).1 =
      ((ForceRefresh o (.response 200 raw (some b) d) now).1.accessToken,
       (ForceRefresh o (.response 200 raw (some b) d) now).1.refreshToken) := by
  simp [ForceRefresh, refreshAccessToken, decodeTokenResponse, GetTokens, h]

/-- Witness for C1 at a concrete state and response. -/
theorem forceRefresh_success_updates_witness :
    ({ accessToken := "old", refreshToken := "ref", clientID := "c",
       clientSecret := "s", tokenURL := "u", expiresAt := 0 } :
        AuthorizerV2).refreshToken ≠ "" ∧
    (ForceRefresh
      { accessToken := "old", refreshToken := "ref", clientID := "c",
        clientSecret := "s", tokenURL := "u", expiresAt := 0 }
      (.response 200 "" (some ⟨some "na", some "nr", some "bearer", some 7200, none⟩) "")
      5).1.accessToken = (some "na").getD "" := by
  refine ⟨by decide, ?_⟩
  exact (forceRefresh_success_updates _ ⟨some "na", some "nr", some "bearer", some 7200, none⟩
    "" "" 5 (by decide)).2.1

/-- C2: in refresh mode, an exchange answered by a non-200 status or by an
undecodable body mutates no cached field (the state is returned unchanged)
and `ForceRefresh` propagates an error that surfaces the response status
and body (for non-200) or the decode failure. -/
theorem forceRefresh_failure_atomic (o : AuthorizerV2) (status : Nat)
    (raw d : String) (json? : Option JsonBody) (now : Int)
    (h : o.refreshToken ≠ "") (hfail : status ≠ 200 ∨ json? = none) :
    ForceRefresh o (.response status raw json? d) now =
      (o, some (if status ≠ 200 then
          "token refresh failed with status " ++ toString status ++ ": " ++ raw
        else "failed to decode token response: " ++ d)) := by
  rcases hfail with hs | hj
  · simp [ForceRefresh, refreshAccessToken, h, hs]
  · subst hj
    by_cases hs : status = 200 <;>
      simp [ForceRefresh, refreshAccessToken, h, hs]

/-- Witness for C2: a concrete 500 response with body "boom". -/
theorem forceRefresh_failure_atomic_witness :
    ForceRefresh
      { accessToken := "old", refreshToken := "ref", clientID := "c",
        clientSecret := "s", tokenURL := "u", expiresAt := 0 }
      (.response 500 "boom" none "") 5 =
      ({ accessToken := "old", refreshToken := "ref", clientID := "c",
         clientSecret := "s", tokenURL := "u", expiresAt := 0 },
       some (if (500 : Nat) ≠ 200 then
          "token refresh failed with status " ++ toString (500 : Nat) ++ ": " ++ "boom"
        else "failed to decode token response: " ++ "")) :=
  forceRefresh_failure_atomic _ 500 "boom" "" none 5 (by decide) (Or.inl (by decide))

/-- C7: `UpdateTokens` applies each argument independently — a non-empty
argument replaces the corresponding token, an empty one leaves it unchanged
— and `expiresAt`, `clientID`, `clientSecret` and `tokenURL` are untouched
(no expiry recalculation). -/
theorem updateTokens_frame (o : AuthorizerV2) (a r : String) :
    (UpdateTokens o a r).accessToken = (if a ≠ "" then a else o.accessToken) ∧
    (UpdateTokens o a r).refreshToken = (if r ≠ "" then r else o.refreshToken) ∧
    (UpdateTokens o a r).expiresAt = o.expiresAt ∧
    (UpdateTokens o a r).clientID = o.clientID ∧
    (UpdateTokens o a r).clientSecret = o.clientSecret ∧
    (UpdateTokens o a r).tokenURL = o.tokenURL := by
  unfold UpdateTokens
  by_cases ha : a = "" <;> by_cases hr : r = "" <;> simp [ha, hr]

/-- C8: the constructor clears `clientID`, `clientSecret` and the token
endpoint when the refresh token is empty (static bearer mode); otherwise it
retains them, sets the hard-coded endpoint, and initializes `expiresAt` to
two hours from construction time. -/
theorem newAuthorizerV2_contract (a r cid cs : String) (now : Int) :
    (r = "" → NewAuthorizerV2 a r cid cs now =
      { accessToken := a, refreshToken := r, clientID := "",
        clientSecret := "", tokenURL := "", expiresAt := now + twoHours }) ∧
    (r ≠ "" → NewAuthorizerV2 a r cid cs now =
      { accessToken := a, refreshToken := r, clientID := cid,
        clientSecret := cs, tokenURL := defaultTokenURL,
        expiresAt := now + twoHours }) := by
  constructor <;> intro hr <;> simp [NewAuthorizerV2, hr]

/-- Witness for C8: both modes at concrete arguments. -/
theorem newAuthorizerV2_contract_witness :
    NewAuthorizerV2 "t" "" "c" "s" 0 =
      { accessToken := "t", refreshToken := "", clientID := "",
        clientSecret := "", tokenURL := "", expiresAt := 0 + twoHours } ∧
    NewAuthorizerV2 "t" "r" "c" "s" 0 =
      { accessToken := "t", refreshToken := "r", clientID := "c",
        clientSecret := "s", tokenURL := defaultTokenURL,
        expiresAt := 0 + twoHours } :=
  ⟨(newAuthorizerV2_contract "t" "" "c" "s" 0).1 rfl,
   (newAuthorizerV2_contract "t" "r" "c" "s" 0).2 (by decide)⟩

/-- C3: in refresh mode, an `Add` performed while `now + 5min` is strictly
before `expiresAt` attaches the cached access token with no exchange and no
state change; an `Add` performed when `expiresAt` is within five minutes of
`now` (inclusive) or past performs exactly one exchange. -/
theorem add_expiry_boundary (o : AuthorizerV2) (nowCheck nowUpd : Int)
    (outcome : ExchangeOutcome) (h : o.refreshToken ≠ "") :
    (nowCheck + fiveMinutes < o.expiresAt →
      Add o nowCheck outcome nowUpd =
        { state := o, header := "Bearer " ++ o.accessToken, exchanges := 0 }) ∧
    (o.expiresAt ≤ nowCheck + fiveMinutes →
      (Add o nowCheck outcome nowUpd).exchanges = 1) := by
  constructor
  · intro hv
    simp [Add, getValidToken, h, hv]
  · intro hstale
    have hnv : ¬ nowCheck + fiveMinutes < o.expiresAt := not_lt.mpr hstale
    have hx := refreshAccessToken_exchanges o o.refreshToken outcome nowUpd h
    simp only [Add, getValidToken, if_neg h, if_neg hnv]
    cases hres : (refreshAccessToken o o.refreshToken outcome nowUpd).result <;>
      simp [hres, hx]

/-- Witness for C3: fresh token at `expiresAt = 7200`, check at time 0
(valid); stale at check time 7200. -/
theorem add_expiry_boundary_witness :
    Add { accessToken := "a", refreshToken := "r", clientID := "c",
          clientSecret := "s", tokenURL := "u", expiresAt := 7200 }
        0 (.transportError "down") 0 =
      { state := { accessToken := "a", refreshToken := "r", clientID := "c",
                   clientSecret := "s", tokenURL := "u", expiresAt := 7200 },
        header := "Bearer " ++ "a", exchanges := 0 } ∧
    (Add { accessToken := "a", refreshToken := "r", clientID := "c",
           clientSecret := "s", tokenURL := "u", expiresAt := 7200 }
        7200 (.transportError "down") 7200).exchanges = 1 :=
  ⟨(add_expiry_boundary _ 0 0 _ (by decide)).1 (by decide),
   (add_expiry_boundary _ 7200 7200 _ (by decide)).2 (by decide)⟩

/-- C4: in refresh mode, whenever obtaining a valid token fails — transport
failure, non-200 status, decode failure — `Add` still sets the bearer
header from the currently cached access token, leaves the state unchanged,
and returns normally (it is a total function with no error output). -/
theorem add_swallows_refresh_failure (o : AuthorizerV2) (nowCheck nowUpd : Int)
    (outcome : ExchangeOutcome) (e : String) (h : o.refreshToken ≠ "")
    (hfail : (getValidToken o nowCheck outcome nowUpd).result = .error e) :
    (Add o nowCheck outcome nowUpd).header = "Bearer " ++ o.accessToken ∧
    (Add o nowCheck outcome nowUpd).state = o := by
  by_cases hv : nowCheck + fiveMinutes < o.expiresAt
  · rw [getValidToken, if_pos hv] at hfail
    simp at hfail
  · rw [getValidToken, if_neg hv] at hfail
    have hstate := refreshAccessToken_error_state o o.refreshToken outcome nowUpd e hfail
    simp only [Add, getValidToken, if_neg h, if_neg hv]
    simp [hfail, hstate]

/-- Witness for C4: a stale token and a transport failure. -/
theorem add_swallows_refresh_failure_witness :
    (getValidToken
      { accessToken := "old", refreshToken := "ref", clientID := "c",
        clientSecret := "s", tokenURL := "u", expiresAt := 0 }
      0 (.transportError "down") 0).result =
        .error ("failed to refresh token: " ++ "down") ∧
    (Add { accessToken := "old", refreshToken := "ref", clientID := "c",
           clientSecret := "s", tokenURL := "u", expiresAt := 0 }
        0 (.transportError "down") 0).header = "Bearer " ++ "old" :=
  ⟨by decide,
   (add_swallows_refresh_failure _ 0 0 (.transportError "down")
     ("failed to refresh token: " ++ "down") (by decide) (by decide)).1⟩

/-- C5: in static mode (empty refresh token), `Add` sets the header to
`"Bearer "` followed by exactly the stored access token, performs no
exchange, changes no state, never fails, and the header does not depend on
the stored expiry. -/
theorem add_static_mode (o : AuthorizerV2) (nowCheck nowUpd e : Int)
    (outcome : ExchangeOutcome) (h : o.refreshToken = "") :
    Add o nowCheck outcome nowUpd =
      { state := o, header := "Bearer " ++ o.accessToken, exchanges := 0 } ∧
    (Add { o with expiresAt := e } nowCheck outcome nowUpd).header =
      "Bearer " ++ o.accessToken := by
  constructor <;> simp [Add, h]

/-- Witness for C5: the spec's scenario, access `"tok"`, refresh `""`. -/
theorem add_static_mode_witness :
    Add (NewAuthorizerV2 "tok" "" "" "" 0) 0 (.transportError "down") 0 =
      { state := NewAuthorizerV2 "tok" "" "" "" 0,
        header := "Bearer " ++ "tok", exchanges := 0 } :=
  (add_static_mode (NewAuthorizerV2 "tok" "" "" "" 0) 0 0 0
    (.transportError "down") (by decide)).1

/-- C6: `ForceRefresh` on an empty stored refresh token returns exactly the
no-refresh-token error and mutates nothing; with a non-empty refresh token
it never returns that error (every other failure message is distinct). -/
theorem forceRefresh_requires_refresh_token (o : AuthorizerV2)
    (outcome : ExchangeOutcome) (now : Int) :
    (o.refreshToken = "" →
      ForceRefresh o outcome now = (o, some "no refresh token available")) ∧
    (o.refreshToken ≠ "" →
      (ForceRefresh o outcome now).2 ≠ some "no refresh token available") := by
  constructor
  · intro h
    simp [ForceRefresh, h]
  · intro h
    cases outcome with
    | transportError m =>
      have h1 : ("failed to refresh token: " ++ m).data.head? = some 'f' :=
        head?_append "failed to refresh token: " m 'f' rfl
      simp only [ForceRefresh, if_neg h, refreshAccessToken]
      simp [h]
      exact ne_of_head_ne _ _ (by rw [h1]; decide)
    | response s raw j d =>
      by_cases hs : s = 200
      · cases j with
        | none =>
          have h1 : ("failed to decode token response: " ++ d).data.head? = some 'f' :=
            head?_append "failed to decode token response: " d 'f' rfl
          simp only [ForceRefresh, if_neg h, refreshAccessToken]
          simp [h, hs]
          exact ne_of_head_ne _ _ (by rw [h1]; decide)
        | some b =>
          simp [ForceRefresh, refreshAccessToken, h, hs]
      · have h1 : ("token refresh failed with status " ++ toString s).data.head? =
            some 't' :=
          head?_append "token refresh failed with status " (toString s) 't' rfl
        have h2 : ("token refresh failed with status " ++ toString s
            ++ ": ").data.head? = some 't' :=
          head?_append _ ": " 't' h1
        have h3 : ("token refresh failed with status " ++ toString s ++ ": "
            ++ raw).data.head? = some 't' :=
          head?_append _ raw 't' h2
        simp only [ForceRefresh, if_neg h, refreshAccessToken]
        simp [h, hs]
        exact ne_of_head_ne _ _ (by rw [h3]; decide)

/-- Witness for C6: both modes at concrete states. -/
theorem forceRefresh_requires_refresh_token_witness :
    ForceRefresh { accessToken := "tok", refreshToken := "", clientID := "",
                   clientSecret := "", tokenURL := "", expiresAt := 0 }
        (.transportError "down") 0 =
      ({ accessToken := "tok", refreshToken := "", clientID := "",
         clientSecret := "", tokenURL := "", expiresAt := 0 },
       some "no refresh token available") ∧
    (ForceRefresh { accessToken := "tok", refreshToken := "ref", clientID := "c",
                    clientSecret := "s", tokenURL := "u", expiresAt := 0 }
        (.transportError "down") 0).2 ≠ some "no refresh token available" :=
  ⟨(forceRefresh_requires_refresh_token _ (.transportError "down") 0).1 rfl,
   (forceRefresh_requires_refresh_token _ (.transportError "down") 0).2 (by decide)⟩

/-- C9 counterexample: a 200 response whose decodable JSON body lacks
`access_token` is *not* a decode failure — Go's `encoding/json` leaves the
absent field at its zero value — so the exchange succeeds and *does* update
the cached access token (to the empty string), contradicting the claim. -/
theorem missing_access_token_not_decode_failure :
    (ForceRefresh
      { accessToken := "old", refreshToken := "ref", clientID := "c",
        clientSecret := "s", tokenURL := "u", expiresAt := 0 }
      (.response 200 "\x7b\"token_type\":\"bearer\"\x7d"
        (some ⟨none, none, some "bearer", none, none⟩) "") 0).2 = none ∧
    (ForceRefresh
      { accessToken := "old", refreshToken := "ref", clientID := "c",
        clientSecret := "s", tokenURL := "u", expiresAt := 0 }
      (.response 200 "\x7b\"token_type\":\"bearer\"\x7d"
        (some ⟨none, none, some "bearer", none, none⟩) "") 0).1.accessToken = "" ∧
    ({ accessToken := "old", refreshToken := "ref", clientID := "c",
       clientSecret := "s", tokenURL := "u", expiresAt := 0 } :
        AuthorizerV2).accessToken = "old" := by
  decide

/-- C9 amended: a 200 response with any decodable JSON body succeeds even
when `access_token` is absent or empty; the cached access token is then
unconditionally set to the decoded value, i.e. the empty string — the code
performs no validation that a new access token was supplied. -/
theorem exchange_accepts_empty_access_token (o : AuthorizerV2) (b : JsonBody)
    (raw d : String) (now : Int) (h : o.refreshToken ≠ "")
    (hb : b.access_token.getD "" = "") :
    (ForceRefresh o (.response 200 raw (some b) d) now).2 = none ∧
    (ForceRefresh o (.response 200 raw (some b) d) now).1.accessToken = "" := by
  simp [ForceRefresh, refreshAccessToken, decodeTokenResponse, h, hb]

/-- Witness for the amended C9: the concrete body lacking `access_token`. -/
theorem exchange_accepts_empty_access_token_witness :
    (ForceRefresh
      { accessToken := "old", refreshToken := "ref", clientID := "c",
        clientSecret := "s", tokenURL := "u", expiresAt := 0 }
      (.response 200 "\x7b\"token_type\":\"bearer\"\x7d"
        (some ⟨none, none, some "bearer", none, none⟩) "") 0).1.accessToken = "" :=
  (exchange_accepts_empty_access_token _
    ⟨none, none, some "bearer", none, none⟩
    "\x7b\"token_type\":\"bearer\"\x7d" "" 0 (by decide) (by decide)).2

/-- C10: a non-empty stored refresh token stays non-empty across every
operation — `Add`, `ForceRefresh`, `UpdateTokens`, `GetTokens` — whether an
exchange succeeds or fails, so refresh mode is never silently demoted to
static mode. -/
theorem refresh_mode_non_demotion (o : AuthorizerV2) (nowCheck nowUpd now : Int)
    (outcome : ExchangeOutcome) (a r : String) (h : o.refreshToken ≠ "") :
    (Add o nowCheck outcome nowUpd).state.refreshToken ≠ "" ∧
    (ForceRefresh o outcome now).1.refreshToken ≠ "" ∧
    (UpdateTokens o a r).refreshToken ≠ "" ∧
    (GetTokens o).2 ≠ "" := by
  refine ⟨?_, ?_, ?_, h⟩
  · by_cases hv : nowCheck + fiveMinutes < o.expiresAt
    · simp [Add, getValidToken, h, hv]
    · have hk := refreshAccessToken_keeps_refresh o o.refreshToken outcome nowUpd h
      simp only [Add, getValidToken, if_neg h, if_neg hv]
      cases hres : (refreshAccessToken o o.refreshToken outcome nowUpd).result <;>
        simp [hres, hk]
  · have hk := refreshAccessToken_keeps_refresh o o.refreshToken outcome now h
    simp only [ForceRefresh, if_neg h]
    cases hres : (refreshAccessToken o o.refreshToken outcome now).result <;>
      simp [hres, hk]
  · unfold UpdateTokens
    by_cases hr : r = "" <;> by_cases ha : a = "" <;> simp [hr, ha, h]

/-- Witness for C10 at a concrete refresh-mode state. -/
theorem refresh_mode_non_demotion_witness :
    (Add { accessToken := "old", refreshToken := "ref", clientID := "c",
           clientSecret := "s", tokenURL := "u", expiresAt := 0 }
        0 (.transportError "down") 0).state.refreshToken ≠ "" ∧
    (UpdateTokens { accessToken := "old", refreshToken := "ref", clientID := "c",
                    clientSecret := "s", tokenURL := "u", expiresAt := 0 }
        "x" "").refreshToken ≠ "" :=
  ⟨(refresh_mode_non_demotion _ 0 0 0 (.transportError "down") "x" "" (by decide)).1,
   (refresh_mode_non_demotion _ 0 0 0 (.transportError "down") "x" "" (by decide)).2.2.1⟩

end GoTwitter
